import Mathlib

/-!
Verification development for the rack-director network boot orchestrator.

The definitions below are shallow embeddings of the Rust sources:

* `src/tftp/packet.rs`  — TFTP packet codec (`Packet`, `Packet.parse`, `Packet.toBytes`)
* `src/tftp/state.rs`   — TFTP transfer state machine (`TransferState`, `stateHandle`, …)
* `src/dhcp/packet.rs`  — DHCP packet codec (`DhcpPacket`, `DhcpPacket.parse`, …)
* `src/dhcp/pool.rs`    — IPv4 address pool (`Ipv4PoolB`, `Ipv4PoolB.allocate`, …)
* `src/dhcp/server.rs`  — DHCP discover/request handlers (`handleDiscover`, `handleRequest`)

Conventions: Rust `u8`/`u16`/`u32` values are `Nat` with explicit `% 2^w`
wrapping where the source can overflow (Rust release semantics); `Vec<u8>`
and `String` (always used via `as_bytes`) are `List Nat`; `HashSet` is
`Finset Nat`; `HashMap<u8, DhcpOption>` is an association list updated by
replacement; fallible Rust functions returning `Result`/`Option` are
`Except String`/`Option`.  Random number generators are modelled by an
explicit list of the drawn values.
-/

namespace RackDirector

/-! ## TFTP packet codec — src/tftp/packet.rs -/

/-- `Error` enum of src/tftp/packet.rs. -/
inductive TftpError
  | undefined
  | fileNotFound
  | accessViolation
  | diskFull
  | illegalOperation
  | unknownTransferID
  | fileAlreadyExists
  | noSuchUser
  | unknown (code : Nat)
  deriving DecidableEq, Repr

/-- `impl From<u16> for Error` (src/tftp/packet.rs lines 17-31). -/
def TftpError.ofCode : Nat → TftpError
  | 0 => .undefined
  | 1 => .fileNotFound
  | 2 => .accessViolation
  | 3 => .diskFull
  | 4 => .illegalOperation
  | 5 => .unknownTransferID
  | 6 => .fileAlreadyExists
  | 7 => .noSuchUser
  | c => .unknown c

/-- `impl From<Error> for u16` (src/tftp/packet.rs lines 33-47). -/
def TftpError.toCode : TftpError → Nat
  | .undefined => 0
  | .fileNotFound => 1
  | .accessViolation => 2
  | .diskFull => 3
  | .illegalOperation => 4
  | .unknownTransferID => 5
  | .fileAlreadyExists => 6
  | .noSuchUser => 7
  | .unknown c => c

/-- `Packet` enum of src/tftp/packet.rs.  Strings are carried as their
UTF-8 byte sequences (`Vec<u8>`/`String::as_bytes`). -/
inductive Packet
  | rrq (filename mode : List Nat)
  | wrq (filename mode : List Nat)
  | data (block : Nat) (payload : List Nat)
  | ack (block : Nat)
  | error (code : TftpError) (message : List Nat)
  deriving DecidableEq, Repr

/-- `write_u16` (src/tftp/packet.rs lines 213-215): big-endian bytes of a u16. -/
def writeU16 (w : Nat) : List Nat := [w / 256 % 256, w % 256]

/-- `write_string` (src/tftp/packet.rs lines 217-220).  The source pushes
`b'0'` (ASCII 48, the character zero), not the NUL byte `b'\0'`. -/
def writeString (s : List Nat) : List Nat := s ++ [48]

/-- `Packet::to_bytes` (src/tftp/packet.rs lines 88-117).  The source
writes opcode `3` for `Ack` and, for `Error`, writes the error code in
the opcode position (no opcode 5 is emitted). -/
def Packet.toBytes : Packet → List Nat
  | .rrq filename mode => writeU16 1 ++ writeString filename ++ writeString mode
  | .wrq filename mode => writeU16 2 ++ writeString filename ++ writeString mode
  | .data block payload => writeU16 3 ++ writeU16 block ++ payload
  | .ack block => writeU16 3 ++ writeU16 block
  | .error code message => writeU16 code.toCode ++ writeString message

/-- `read_u16` (src/tftp/packet.rs lines 193-200). -/
def readU16 : List Nat → Except String (Nat × List Nat)
  | hi :: lo :: rest => .ok (hi * 256 + lo, rest)
  | _ => .error "packet not long enough for reading u16"

/-- `read_string` (src/tftp/packet.rs lines 202-211): bytes up to the
first NUL byte; error when no terminator exists. -/
def readString : List Nat → Except String (List Nat × List Nat)
  | [] => .error "packet missing null terminator reading string"
  | c :: rest =>
    if c = 0 then .ok ([], rest)
    else match readString rest with
      | .ok (s, remainder) => .ok (c :: s, remainder)
      | .error e => .error e

/-- `parse_rrq` (src/tftp/packet.rs lines 143-151). -/
def parseRrq (b : List Nat) : Except String Packet := do
  let (filename, remainder) ← readString b
  let (mode, _) ← readString remainder
  return .rrq filename mode

/-- `parse_wrq` (src/tftp/packet.rs lines 153-161). -/
def parseWrq (b : List Nat) : Except String Packet := do
  let (filename, remainder) ← readString b
  let (mode, _) ← readString remainder
  return .wrq filename mode

/-- `parse_data` (src/tftp/packet.rs lines 163-169). -/
def parseData (b : List Nat) : Except String Packet := do
  let (block, remainder) ← readU16 b
  return .data block remainder

/-- `parse_ack` (src/tftp/packet.rs lines 171-178). -/
def parseAck (b : List Nat) : Except String Packet := do
  let (block, _) ← readU16 b
  return .ack block

/-- `parse_error` (src/tftp/packet.rs lines 180-191). -/
def parseError (b : List Nat) : Except String Packet := do
  let (code, remainder) ← readU16 b
  let (message, _) ← readString remainder
  return .error (TftpError.ofCode code) message

/-- `Packet::parse` (src/tftp/packet.rs lines 75-86). -/
def Packet.parse (b : List Nat) : Except String Packet := do
  let (opcode, remainder) ← readU16 b
  match opcode with
  | 1 => parseRrq remainder
  | 2 => parseWrq remainder
  | 3 => parseData remainder
  | 4 => parseAck remainder
  | 5 => parseError remainder
  | _ => .error "unknown opcode"

/-! ## TFTP transfer state machine — src/tftp/state.rs -/

/-- A `FileProvider` reader (`trait Reader`, src/tftp/state.rs lines 13-15),
modelled as the list of chunks its successive `read` calls will return;
`read` fails once the outcomes are exhausted (`Reader::read` returns a
`Result`). -/
abbrev TftpReader := List (List Nat)

/-- `Reader::read`. -/
def TftpReader.read : TftpReader → Except String (List Nat × TftpReader)
  | [] => .error "read failed"
  | chunk :: rest => .ok (chunk, rest)

/-- A `Handler` (`trait Handler`, src/tftp/state.rs lines 8-11):
`create_reader` maps a filename to a reader or an error. -/
abbrev TftpHandler := List Nat → Except String TftpReader

/-- The fields of the `TransferState::Reading` variant
(src/tftp/state.rs lines 27-33). -/
structure ReadingState where
  filename : List Nat
  mode : List Nat
  block : Nat
  reader : TftpReader
  data : List Nat
  deriving DecidableEq, Repr

/-- `TransferState` enum (src/tftp/state.rs lines 25-35). -/
inductive TransferState
  | uninitialized
  | reading (rs : ReadingState)
  | complete
  deriving DecidableEq, Repr

/-- `ControlFlow` enum (src/tftp/state.rs lines 19-22). -/
inductive ControlFlow
  | cont (p : Packet)
  | closed (p : Option Packet)
  deriving DecidableEq, Repr

/-- ASCII bytes of a literal message string. -/
def asciiBytes (s : String) : List Nat := s.data.map Char.toNat

/-- The packet built in the `Err` arm of `State::handle`
(src/tftp/state.rs lines 97-104). -/
def internalErrorPacket : Packet :=
  .error .undefined (asciiBytes "internal error occured")

/-- The packet built by `State::error` (src/tftp/state.rs lines 127-143). -/
def illegalOpPacket : Packet := .error .illegalOperation []

/-- Wrapping u16 reduction (Rust release-build semantics). -/
def u16 (n : Nat) : Nat := n % 65536

/-- Wrapping u16 subtraction `a - b` (Rust release-build semantics),
for `a b < 65536`. -/
def u16sub (a b : Nat) : Nat := (a + 65536 - b % 65536) % 65536

/-- `handle_ack` (src/tftp/state.rs lines 186-226) under wrapping
arithmetic.  Returns the `Reading` fields after the in-place mutations
together with either the `HandleResponse` (next state override and
control flow) or the propagated error (`reader.read()?` failure or the
`anyhow!` unexpected-block return).  Note that in the `len >= 512`
branch the source increments `*block` before the fallible read. -/
def handleAck (rs : ReadingState) (acked : Nat) :
    ReadingState × Except String (Option TransferState × ControlFlow) :=
  if acked = rs.block then
    if rs.data.length < 512 then
      (rs, .ok (some .complete, .closed none))
    else
      match rs.reader.read with
      | .error e => ({ rs with block := u16 (rs.block + 1) }, .error e)
      | .ok (d, r') =>
        ({ rs with block := u16 (rs.block + 1), reader := r', data := d },
         .ok (none, .cont (.data (u16 (acked + 1)) d)))
  else if acked = u16sub rs.block 1 then
    (rs, .ok (none, .cont (.data (u16 (acked + 1)) rs.data)))
  else
    (rs, .error "Unexpected ACK block number")

/-- `handle_read_request` (src/tftp/state.rs lines 164-183).  On success
the new state is `Reading` with `block = 0` and the reply is
`DATA{block = 0}`. -/
def handleReadRequest (h : TftpHandler) (filename mode : List Nat) :
    Except String (TransferState × ControlFlow) :=
  match h filename with
  | .error e => .error e
  | .ok reader =>
    match reader.read with
    | .error e => .error e
    | .ok (d, r') =>
      .ok (.reading ⟨filename, mode, 0, r', d⟩, .cont (.data 0 d))

/-- `State::handle` (src/tftp/state.rs lines 55-106): the state after the
call and the returned `ControlFlow`.  In the `Err` arm the source leaves
`self.state` unchanged (apart from mutations `handle_ack` already made)
and replies `ERROR{Undefined, "internal error occured"}`. -/
def stateHandle (h : TftpHandler) (s : TransferState) (p : Packet) :
    TransferState × ControlFlow :=
  match s, p with
  | .uninitialized, .rrq filename mode =>
    (match handleReadRequest h filename mode with
     | .ok (ns, flow) => (ns, flow)
     | .error _ => (.uninitialized, .closed (some internalErrorPacket)))
  | .uninitialized, _ => (.complete, .closed (some illegalOpPacket))
  | .reading rs, .ack acked =>
    (match handleAck rs acked with
     | (rs', .ok (none, flow)) => (.reading rs', flow)
     | (_, .ok (some ns, flow)) => (ns, flow)
     | (rs', .error _) => (.reading rs', .closed (some internalErrorPacket)))
  | .reading _, .error _ _ => (.complete, .closed none)
  | .reading _, _ => (.complete, .closed (some illegalOpPacket))
  | .complete, _ => (.complete, .closed (some illegalOpPacket))

/-- `State::handle_timeout` (src/tftp/state.rs lines 108-124).  The state
is never mutated; in `Reading` the current DATA is re-emitted. -/
def handleTimeout : TransferState → ControlFlow
  | .uninitialized => .closed none
  | .reading rs => .cont (.data rs.block rs.data)
  | .complete => .closed none

/-- Whether a run of `k` consecutive receive timeouts closes the
connection (the timeout arm of the loop in `Connection::accept`,
src/tftp/connection.rs lines 75-118): each timeout invokes
`State::handle_timeout`, which does not change the state, and the
connection closes only when it returns `ControlFlow::Closed`. -/
def timeoutsClose (s : TransferState) : Nat → Bool
  | 0 => false
  | k + 1 =>
    match handleTimeout s with
    | .closed _ => true
    | .cont _ => timeoutsClose s k

/-- Checked u16 addition (Rust debug-build semantics): `none` models the
arithmetic-overflow panic. -/
def u16addChecked (a b : Nat) : Option Nat :=
  if a + b < 65536 then some (a + b) else none

/-- Checked u16 subtraction (Rust debug-build semantics): `none` models the
arithmetic-underflow panic. -/
def u16subChecked (a b : Nat) : Option Nat :=
  if b ≤ a then some (a - b) else none

/-- `handle_ack` (src/tftp/state.rs lines 186-226) under checked
(debug-build) u16 arithmetic; `none` models a panic.  Mirrors the
source's evaluation order: `next_block = *block + 1` is computed
unconditionally first, `*block - 1` only in the comparison of the second
branch, and `acked_block + 1` when the reply packet is built. -/
def handleAckChecked (rs : ReadingState) (acked : Nat) :
    Option (ReadingState × Except String (Option TransferState × ControlFlow)) :=
  match u16addChecked rs.block 1 with
  | none => none
  | some nextBlock =>
    if acked = rs.block then
      if rs.data.length < 512 then
        some (rs, .ok (some .complete, .closed none))
      else
        match rs.reader.read with
        | .error e => some ({ rs with block := nextBlock }, .error e)
        | .ok (d, r') =>
          match u16addChecked acked 1 with
          | none => none
          | some rb =>
            some ({ rs with block := nextBlock, reader := r', data := d },
                  .ok (none, .cont (.data rb d)))
    else
      match u16subChecked rs.block 1 with
      | none => none
      | some bm1 =>
        if acked = bm1 then
          match u16addChecked acked 1 with
          | none => none
          | some rb => some (rs, .ok (none, .cont (.data rb rs.data)))
        else
          some (rs, .error "Unexpected ACK block number")

/-! ## IPv4 address pool — src/dhcp/pool.rs -/

/-- An IPv4 pool bucket (`struct Ipv4Pool`, src/dhcp/pool.rs lines
124-128).  `net` and `bcast` are the u32 values of
`self.network.network()` and `self.network.broadcast()` (the first and
last address of the prefix); `allocated` is the `HashSet<Ipv4Addr>`. -/
structure Ipv4PoolB where
  net : Nat
  bcast : Nat
  subnetId : Int
  allocated : Finset Nat
  deriving DecidableEq

/-- The sequential fallback `for ip_u32 in start..=end_ip`
(src/dhcp/pool.rs lines 163-170): first unallocated address of the
range of length `cnt` starting at `start`. -/
def seqScan (start cnt : Nat) (alloc : Finset Nat) : Option Nat :=
  ((List.range cnt).map (start + ·)).find? (fun ip => !(decide (ip ∈ alloc)))

/-- `Ipv4Pool::allocate` (src/dhcp/pool.rs lines 139-173).  The RNG is
modelled by `picks`, the successive values drawn by
`rng.gen_range(start..=end_ip)`; the source draws at most 100 of them
before falling back to the sequential scan.  The `+ 1` / `- 1` on the
u32 boundary values wrap, as in a release build. -/
def Ipv4PoolB.allocate (p : Ipv4PoolB) (picks : List Nat) :
    Option (Nat × Ipv4PoolB) :=
  let start := (p.net + 1) % 2 ^ 32
  let endIp := (p.bcast + 2 ^ 32 - 1) % 2 ^ 32
  if endIp ≤ start then none
  else
    match (picks.take 100).find? (fun ip => !(decide (ip ∈ p.allocated))) with
    | some ip => some (ip, { p with allocated := insert ip p.allocated })
    | none =>
      match seqScan start (endIp + 1 - start) p.allocated with
      | some ip => some (ip, { p with allocated := insert ip p.allocated })
      | none => none

/-- `self.network.contains(&ipv4)` for a bucket: the address lies inside
the prefix range. -/
def Ipv4PoolB.containsIp (p : Ipv4PoolB) (ip : Nat) : Bool :=
  decide (p.net ≤ ip) && decide (ip ≤ p.bcast)

/-- The IPv4 arm of `IpPool::is_available` (src/dhcp/pool.rs lines
102-122): the first bucket whose prefix contains the address decides;
no bucket means not available. -/
def isAvailable (pools : List Ipv4PoolB) (ip : Nat) : Bool :=
  match pools.find? (fun b => b.containsIp ip) with
  | some b => !(decide (ip ∈ b.allocated))
  | none => false

/-- The `Some(subnet_id)` arm of `IpPool::allocate_ipv4`
(src/dhcp/pool.rs lines 32-47): allocate from the first bucket carrying
that subnet id; no other bucket is tried. -/
def allocateIpv4Subnet : List Ipv4PoolB → Int → List Nat →
    Option (Nat × List Ipv4PoolB)
  | [], _, _ => none
  | b :: rest, id, picks =>
    if b.subnetId = id then
      (b.allocate picks).map (fun r => (r.1, r.2 :: rest))
    else
      (allocateIpv4Subnet rest id picks).map (fun r => (r.1, b :: r.2))

/-- The `None` arm of `IpPool::allocate_ipv4` (src/dhcp/pool.rs lines
38-45): try every bucket in order, each with its own RNG draws. -/
def allocateIpv4Any : List Ipv4PoolB → (Nat → List Nat) →
    Option (Nat × List Ipv4PoolB)
  | [], _ => none
  | b :: rest, picksF =>
    match b.allocate (picksF 0) with
    | some (ip, b') => some (ip, b' :: rest)
    | none =>
      (allocateIpv4Any rest (fun i => picksF (i + 1))).map
        (fun r => (r.1, b :: r.2))

/-- `IpPool::allocate_ipv4` (src/dhcp/pool.rs lines 32-47). -/
def allocateIpv4 (pools : List Ipv4PoolB) (sid : Option Int)
    (picksF : Nat → List Nat) : Option (Nat × List Ipv4PoolB) :=
  match sid with
  | some id => allocateIpv4Subnet pools id (picksF 0)
  | none => allocateIpv4Any pools picksF

/-! ## DHCP packet codec — src/dhcp/packet.rs -/

/-- `DhcpMessageType` enum (src/dhcp/packet.rs lines 5-15). -/
inductive DhcpMessageType
  | discover | offer | request | decline | ack | nak | release | inform
  deriving DecidableEq, Repr

/-- The discriminant values of `DhcpMessageType`. -/
def DhcpMessageType.toCode : DhcpMessageType → Nat
  | .discover => 1
  | .offer => 2
  | .request => 3
  | .decline => 4
  | .ack => 5
  | .nak => 6
  | .release => 7
  | .inform => 8

/-- `impl TryFrom<u8> for DhcpMessageType` (src/dhcp/packet.rs lines
17-33). -/
def DhcpMessageType.ofCode? : Nat → Option DhcpMessageType
  | 1 => some .discover
  | 2 => some .offer
  | 3 => some .request
  | 4 => some .decline
  | 5 => some .ack
  | 6 => some .nak
  | 7 => some .release
  | 8 => some .inform
  | _ => none

/-- `Option82Data` (src/dhcp/packet.rs lines 50-54). -/
structure Option82Data where
  circuitId : Option (List Nat)
  remoteId : Option (List Nat)
  deriving DecidableEq, Repr

/-- `DhcpOption` enum (src/dhcp/packet.rs lines 35-48).  IPv4 addresses
are their u32 values; strings are their byte sequences. -/
inductive DhcpOption
  | subnetMask (addr : Nat)
  | router (addrs : List Nat)
  | dnsServers (addrs : List Nat)
  | domainName (bytes : List Nat)
  | leaseTime (t : Nat)
  | messageType (t : DhcpMessageType)
  | serverIdentifier (addr : Nat)
  | requestedIpAddress (addr : Nat)
  | clientIdentifier (bytes : List Nat)
  | option82 (d : Option82Data)
  | other (code : Nat) (bytes : List Nat)
  deriving DecidableEq, Repr

/-- The `HashMap<u8, DhcpOption>` of a packet, as an association list;
only key lookup and replacing insertion are used by the code. -/
abbrev OptMap := List (Nat × DhcpOption)

/-- `HashMap::insert`: replace an existing binding, else add one. -/
def OptMap.insertOpt (m : OptMap) (code : Nat) (o : DhcpOption) : OptMap :=
  (m.filter (fun kv => kv.1 != code)) ++ [(code, o)]

/-- `HashMap::get`. -/
def OptMap.get? (m : OptMap) (code : Nat) : Option DhcpOption :=
  (m.find? (fun kv => kv.1 == code)).map (fun kv => kv.2)

/-- `DhcpPacket` struct (src/dhcp/packet.rs lines 56-73).  `chaddr` is
the 6 MAC bytes, `sname`/`file` the fixed 64/128-byte arrays. -/
structure DhcpPacket where
  op : Nat
  htype : Nat
  hlen : Nat
  hops : Nat
  xid : Nat
  secs : Nat
  flags : Nat
  ciaddr : Nat
  yiaddr : Nat
  siaddr : Nat
  giaddr : Nat
  chaddr : List Nat
  sname : List Nat
  file : List Nat
  options : OptMap
  deriving DecidableEq, Repr

/-- `DhcpPacket::new` (src/dhcp/packet.rs lines 76-94). -/
def DhcpPacket.new : DhcpPacket where
  op := 0
  htype := 1
  hlen := 6
  hops := 0
  xid := 0
  secs := 0
  flags := 0
  ciaddr := 0
  yiaddr := 0
  siaddr := 0
  giaddr := 0
  chaddr := List.replicate 6 0
  sname := List.replicate 64 0
  file := List.replicate 128 0
  options := []

/-- Big-endian integer from `n` bytes of `data` starting at index `i`. -/
def readBE (data : List Nat) (i n : Nat) : Nat :=
  (List.range n).foldl (fun acc j => acc * 256 + data.getD (i + j) 0) 0

/-- The `option_data.chunks(4)` loops of options 3 and 6
(src/dhcp/packet.rs lines 168-185): each complete 4-byte chunk becomes
an address, an incomplete trailing chunk is dropped. -/
def ipv4List : List Nat → List Nat
  | a :: b :: c :: d :: rest =>
    (a * 16777216 + b * 65536 + c * 256 + d) :: ipv4List rest
  | _ => []

/-- `DhcpPacket::parse_option82` (src/dhcp/packet.rs lines 236-267);
it never fails (truncated sub-options just stop the loop). -/
def parseOption82Aux (d : Option82Data) : List Nat → Option82Data
  | [] => d
  | [_] => d
  | sc :: sl :: rest =>
    if sl ≤ rest.length then
      let sub := rest.take sl
      let d' :=
        if sc = 1 then { d with circuitId := some sub }
        else if sc = 2 then { d with remoteId := some sub }
        else d
      parseOption82Aux d' (rest.drop sl)
    else d
termination_by l => l.length
decreasing_by
  all_goals simp [List.length_drop]
  all_goals omega

/-- The per-option decoding match of `DhcpPacket::parse_options`
(src/dhcp/packet.rs lines 158-227): options 1/50/51/54 need length 4 and
option 53 length 1 with a known message type, otherwise they fall back
to `Other`; all other codes never fail. -/
def decodeOption (code len : Nat) (od : List Nat) : DhcpOption :=
  if code = 1 then
    if len = 4 then .subnetMask (readBE od 0 4) else .other code od
  else if code = 3 then .router (ipv4List od)
  else if code = 6 then .dnsServers (ipv4List od)
  else if code = 15 then .domainName od
  else if code = 51 then
    if len = 4 then .leaseTime (readBE od 0 4) else .other code od
  else if code = 53 then
    if len = 1 then
      match DhcpMessageType.ofCode? (od.getD 0 0) with
      | some t => .messageType t
      | none => .other code od
    else .other code od
  else if code = 54 then
    if len = 4 then .serverIdentifier (readBE od 0 4) else .other code od
  else if code = 50 then
    if len = 4 then .requestedIpAddress (readBE od 0 4) else .other code od
  else if code = 61 then .clientIdentifier od
  else if code = 82 then .option82 (parseOption82Aux ⟨none, none⟩ od)
  else .other code od

/-- The loop of `DhcpPacket::parse_options` (src/dhcp/packet.rs lines
131-234), with an explicit fuel that strictly exceeds the number of
iterations whenever `fuel ≥ length` (each iteration consumes at least
one byte): 255 ends, 0 pads; an option whose length byte is missing
yields `Invalid option format`, one whose declared length exceeds the
remaining buffer yields `Option length exceeds packet size`. -/
def parseOptionsGo : Nat → OptMap → List Nat → Except String OptMap
  | _, acc, [] => .ok acc
  | 0, acc, _ :: _ => .ok acc
  | fuel + 1, acc, c :: rest =>
    if c = 255 then .ok acc
    else if c = 0 then parseOptionsGo fuel acc rest
    else
      match rest with
      | [] => .error "Invalid option format"
      | len :: rest2 =>
        if len ≤ rest2.length then
          parseOptionsGo fuel (acc.insertOpt c (decodeOption c len (rest2.take len)))
            (rest2.drop len)
        else .error "Option length exceeds packet size"

/-- `DhcpPacket::parse_options` (src/dhcp/packet.rs lines 131-234). -/
def parseOptionsAux (acc : OptMap) (l : List Nat) : Except String OptMap :=
  parseOptionsGo l.length acc l

/-- Outcome of `DhcpPacket::parse`: success, a returned `Err`, or a
panic (`data[236..240]` indexes out of bounds for buffers of length
237-239). -/
inductive DParseResult
  | ok (p : DhcpPacket)
  | err (e : String)
  | panics
  deriving DecidableEq, Repr

/-- Whether a parse outcome is a packet. -/
def DParseResult.isOk : DParseResult → Bool
  | .ok _ => true
  | _ => false

/-- `DhcpPacket::parse` (src/dhcp/packet.rs lines 96-129).  A buffer of
236 bytes or ≥ 240 bytes without the magic cookie yields the header with
an empty option map; lengths 237-239 panic on the `data[236..240]`
slice. -/
def DhcpPacket.parse (data : List Nat) : DParseResult :=
  if data.length < 236 then .err "DHCP packet too short"
  else
    let base : DhcpPacket :=
      { op := data.getD 0 0
        htype := data.getD 1 0
        hlen := data.getD 2 0
        hops := data.getD 3 0
        xid := readBE data 4 4
        secs := readBE data 8 2
        flags := readBE data 10 2
        ciaddr := readBE data 12 4
        yiaddr := readBE data 16 4
        siaddr := readBE data 20 4
        giaddr := readBE data 24 4
        chaddr := (data.drop 28).take 6
        sname := (data.drop 44).take 64
        file := (data.drop 108).take 128
        options := [] }
    if 236 < data.length then
      if data.length < 240 then .panics
      else if (data.drop 236).take 4 = [99, 130, 83, 99] then
        match parseOptionsAux [] (data.drop 240) with
        | .ok m => .ok { base with options := m }
        | .error e => .err e
      else .ok base
    else .ok base

/-- The framing conditions under which `parse_options` fails, as a
fueled predicate on the raw options region: a non-pad, non-end option
code either lacks its length byte or declares a length exceeding the
remaining buffer. -/
def optionsBadGo : Nat → List Nat → Bool
  | _, [] => false
  | 0, _ :: _ => false
  | fuel + 1, c :: rest =>
    if c = 255 then false
    else if c = 0 then optionsBadGo fuel rest
    else
      match rest with
      | [] => true
      | len :: rest2 =>
        if len ≤ rest2.length then optionsBadGo fuel (rest2.drop len)
        else true

/-- The framing conditions under which `parse_options` fails, on the raw
options region. -/
def optionsBad (l : List Nat) : Bool := optionsBadGo l.length l

/-! ## DHCP server handlers — src/dhcp/server.rs (and src/dhcp/mod.rs) -/

/-- `IpAddr`: an IPv4 or IPv6 address (used for subnet DNS lists). -/
inductive IpAddrM
  | v4 (a : Nat)
  | v6 (a : Nat)
  deriving DecidableEq, Repr

/-- `Interface` struct (src/dhcp/mod.rs lines 48-59). -/
structure Interface where
  id : Option Int
  deviceId : Int
  macAddress : List Nat
  ipv4Address : Option Nat
  ipv6Address : Option Nat
  isBmc : Bool
  rackIdentifier : Option (List Nat)
  rackPort : Option (List Nat)
  subnetId : Option Int
  deriving DecidableEq, Repr

/-- `Subnet` struct (src/dhcp/mod.rs lines 61-71); IPv4/IPv6 prefixes are
`(u32 or u128 address, prefix length)` pairs. -/
structure Subnet where
  id : Option Int
  name : List Nat
  networkIpv4 : Option (Nat × Nat)
  networkIpv6 : Option (Nat × Nat)
  gatewayIpv4 : Option Nat
  gatewayIpv6 : Option Nat
  dnsServers : List IpAddrM
  leaseTime : Nat
  deriving DecidableEq, Repr

/-- A row of `dhcp_leases` as inserted by `DhcpServer::create_lease`
(src/dhcp/server.rs lines 501-519); times are seconds. -/
structure Lease where
  interfaceId : Int
  subnetId : Int
  ip : Nat
  leaseStart : Nat
  leaseEnd : Nat
  isActive : Bool
  deriving DecidableEq, Repr

/-- `ipnet::Ipv4Net::netmask()` for a prefix length. -/
def netmask (plen : Nat) : Nat := 2 ^ 32 - 2 ^ (32 - plen)

/-- `DhcpServer::get_subnet_for_interface` (src/dhcp/server.rs lines
465-499): `None` when the interface carries no subnet id, otherwise the
catalog row for that id (the catalog is abstracted as a lookup
function). -/
def getSubnetForInterface (subnets : Int → Option Subnet) (iface : Interface) :
    Option Subnet :=
  iface.subnetId.bind subnets

/-- The subnet-derived option block shared verbatim by
`handle_discover` (src/dhcp/server.rs lines 231-254) and
`handle_request` (lines 307-330): option 3 when a gateway exists,
option 1 when an IPv4 prefix exists, option 6 when the DNS list has at
least one IPv4 entry, option 51 always — all only when the subnet was
found. -/
def addSubnetOptions (m : OptMap) (subnet? : Option Subnet) : OptMap :=
  match subnet? with
  | none => m
  | some s =>
    let m1 := match s.gatewayIpv4 with
      | some gw => m.insertOpt 3 (.router [gw])
      | none => m
    let m2 := match s.networkIpv4 with
      | some pfx => m1.insertOpt 1 (.subnetMask (netmask pfx.2))
      | none => m1
    let m3 :=
      if s.dnsServers ≠ [] then
        let dns4 : List Nat := s.dnsServers.filterMap
          (fun a => match a with | .v4 x => some x | .v6 _ => none)
        if dns4 ≠ [] then m2.insertOpt 6 (.dnsServers dns4) else m2
      else m2
    m3.insertOpt 51 (.leaseTime s.leaseTime)

/-- The core of `DhcpServer::handle_discover` (src/dhcp/server.rs lines
203-257), after `find_or_create_interface` produced `iface`.  The
offered address is the interface's existing `ipv4_address` whenever one
is present — the source consults the pool only when the interface has
no address, in which case it allocates scoped to `iface.subnet_id`;
allocation failure is the `DhcpError` early return (`none`).  The OFFER
carries `op = 2`, the echoed `xid` and `chaddr`, `yiaddr` = the chosen
address, `siaddr` = the server address, and options 53, 54 plus the
subnet block. -/
def handleDiscover (iface : Interface) (pools : List Ipv4PoolB)
    (picksF : Nat → List Nat) (subnets : Int → Option Subnet)
    (serverIp xid : Nat) (chaddr : List Nat) :
    Option (DhcpPacket × List Ipv4PoolB) :=
  match
    (match iface.ipv4Address with
     | some existingIp => some (existingIp, pools)
     | none => allocateIpv4 pools iface.subnetId picksF) with
  | none => none
  | some (offeredIp, pools') =>
    let base :=
      { DhcpPacket.new with
          op := 2, xid := xid, yiaddr := offeredIp, siaddr := serverIp,
          chaddr := chaddr }
    let opts := OptMap.insertOpt [] 53 (.messageType .offer)
    let opts := opts.insertOpt 54 (.serverIdentifier serverIp)
    let opts := addSubnetOptions opts (getSubnetForInterface subnets iface)
    some ({ base with options := opts }, pools')

/-- `DhcpServer::create_lease` (src/dhcp/server.rs lines 501-519): the
inserted row uses `now` and `now + 3600` — the hard-coded
"Default 1 hour lease" — and `interface.subnet_id.unwrap_or(0)`. -/
def createLease (iface : Interface) (ip now : Nat) : Lease :=
  { interfaceId := iface.id.getD 0
    subnetId := iface.subnetId.getD 0
    ip := ip
    leaseStart := now
    leaseEnd := now + 3600
    isActive := true }

/-- Result of `DhcpServer::handle_request`: dropped (`Ok(None)`), a NAK,
or an ACK together with the lease row it inserted and the IPv4 value it
wrote onto the interface. -/
inductive RequestOutcome
  | drop
  | nak (p : DhcpPacket)
  | ackReply (p : DhcpPacket) (lease : Lease) (ifaceIpv4 : Option Nat)
  deriving DecidableEq, Repr

/-- The core of `DhcpServer::handle_request` (src/dhcp/server.rs lines
259-333), after `find_or_create_interface` produced `iface`.  The
requested address is option 50 when it decoded as
`RequestedIpAddress`, else a nonzero `ciaddr`, else the request is
dropped.  NAK (without address options) unless the pool reports the
address available or the interface already owns it; on acceptance a
lease row is inserted, the interface IPv4 updated, and the ACK built
with options 53, 54 plus the subnet block. -/
def handleRequest (packet : DhcpPacket) (iface : Interface)
    (pools : List Ipv4PoolB) (subnets : Int → Option Subnet)
    (now serverIp : Nat) : RequestOutcome :=
  let requested? : Option Nat :=
    match packet.options.get? 50 with
    | some (.requestedIpAddress ip) => some ip
    | _ => if packet.ciaddr ≠ 0 then some packet.ciaddr else none
  match requested? with
  | none => .drop
  | some requested =>
    if isAvailable pools requested = false ∧ iface.ipv4Address ≠ some requested then
      let base := { DhcpPacket.new with op := 2, xid := packet.xid, chaddr := packet.chaddr }
      let opts := OptMap.insertOpt [] 53 (.messageType .nak)
      let opts := opts.insertOpt 54 (.serverIdentifier serverIp)
      .nak { base with options := opts }
    else
      let lease := createLease iface requested now
      let base :=
        { DhcpPacket.new with
            op := 2, xid := packet.xid, yiaddr := requested,
            siaddr := serverIp, chaddr := packet.chaddr }
      let opts := OptMap.insertOpt [] 53 (.messageType .ack)
      let opts := opts.insertOpt 54 (.serverIdentifier serverIp)
      let opts := addSubnetOptions opts (getSubnetForInterface subnets iface)
      .ackReply { base with options := opts } lease (some requested)

/-- The ACK packet of a request outcome, when one was produced. -/
def RequestOutcome.ackPacket? : RequestOutcome → Option DhcpPacket
  | .ackReply p _ _ => some p
  | _ => none

/-- The lease row of a request outcome, when one was inserted. -/
def RequestOutcome.lease? : RequestOutcome → Option Lease
  | .ackReply _ l _ => some l
  | _ => none

/-- The interface IPv4 update of a request outcome, when one was made. -/
def RequestOutcome.ifaceIp? : RequestOutcome → Option (Option Nat)
  | .ackReply _ _ i => some i
  | _ => none

/-! ## Theorems -/

/-- Helper: `handle_timeout` on a `Reading` state always returns
`Continue`, so no run of consecutive timeouts ever closes the
connection. -/
theorem timeoutsClose_reading_false (rs : ReadingState) (k : Nat) :
    timeoutsClose (.reading rs) k = false := by
  induction k with
  | zero => rfl
  | succ n ih => simpa [timeoutsClose, handleTimeout] using ih

/-- Helper: `u16 x = x` below 2^16. -/
theorem u16_eq_of_lt {x : Nat} (h : x < 65536) : u16 x = x := by
  unfold u16; omega

/-- Helper: wrapping `b - 1` equals plain `b - 1` for `1 ≤ b < 2^16`. -/
theorem u16sub_one_eq {b : Nat} (h1 : 1 ≤ b) (h2 : b < 65536) :
    u16sub b 1 = b - 1 := by
  unfold u16sub; omega

/-- C1: The claim that `Packet::parse(p.to_bytes())` round-trips, that
the serializer writes opcode 4 for ACK and 5 for ERROR, and that
strings are 0x00-terminated, fails on the code: `to_bytes` writes
opcode 3 for `Ack` (so a serialized `Ack{1}` re-parses as `Data{1,[]}`),
writes the bare error code where the ERROR opcode belongs, and
terminates strings with the byte 0x30 (ASCII '0'), so a serialized RRQ
fails to re-parse at all. -/
theorem C1_tftp_roundtrip_broken :
    Packet.parse (Packet.toBytes (.ack 1)) = .ok (.data 1 [])
    ∧ Packet.toBytes (.ack 1) = [0, 3, 0, 1]
    ∧ Packet.toBytes (.error .illegalOperation []) = [0, 4, 48]
    ∧ Packet.toBytes (.error .undefined [109]) = [0, 0, 109, 48]
    ∧ Packet.parse (Packet.toBytes (.rrq [97] [98])) =
        .error "packet missing null terminator reading string" :=
  ⟨rfl, rfl, rfl, rfl, rfl⟩

/-- C3 (amended): an RRQ received in `Uninitialized` whose reader opens
and reads successfully moves the machine to `Reading` and replies with
a DATA packet of block number 0 — not 1 — carrying the first chunk read
from the `FileProvider`. -/
theorem C3_rrq_first_data_block_zero (h : TftpHandler)
    (filename mode chunk : List Nat) (reader rest : TftpReader)
    (hopen : h filename = .ok reader) (hread : reader = chunk :: rest) :
    stateHandle h .uninitialized (.rrq filename mode) =
      (.reading ⟨filename, mode, 0, rest, chunk⟩, .cont (.data 0 chunk)) := by
  subst hread
  simp [stateHandle, handleReadRequest, hopen, TftpReader.read]

/-- Witness for C3: a concrete successful RRQ. -/
theorem C3_rrq_first_data_block_zero_witness :
    stateHandle (fun _ => .ok [[7, 8]]) .uninitialized (.rrq [105] [111]) =
      (.reading ⟨[105], [111], 0, [], [7, 8]⟩, .cont (.data 0 [7, 8])) :=
  C3_rrq_first_data_block_zero _ [105] [111] [7, 8] [[7, 8]] [] rfl rfl

/-- C3 counterexample: at a concrete successful RRQ the reply is
`DATA{block = 0}`, and 0 is not the block number 1 the claim states. -/
theorem C3_counterexample :
    (stateHandle (fun _ => .ok [[7]]) .uninitialized (.rrq [105] [111])).2 =
      .cont (.data 0 [7]) ∧ (0 : Nat) ≠ 1 :=
  ⟨rfl, by decide⟩

/-- C6 (amended): an ACK in `Reading` whose block is neither the current
block nor the (wrapping) current block minus one makes `handle_ack`
return an error, so the session replies with
`ERROR{Undefined, "internal error occured"}` — not `IllegalOperation` —
and the connection closes while the stored state stays `Reading`. -/
theorem C6_unexpected_ack_internal_error (h : TftpHandler)
    (rs : ReadingState) (acked : Nat)
    (h1 : acked ≠ rs.block) (h2 : acked ≠ u16sub rs.block 1) :
    stateHandle h (.reading rs) (.ack acked) =
      (.reading rs, .closed (some internalErrorPacket)) := by
  simp [stateHandle, handleAck, h1, h2]

/-- Witness for C6: a concrete unexpected ACK. -/
theorem C6_unexpected_ack_internal_error_witness :
    stateHandle (fun _ => .error "nf")
        (.reading ⟨[102], [111], 5, [], [1]⟩) (.ack 2) =
      (.reading ⟨[102], [111], 5, [], [1]⟩, .closed (some internalErrorPacket)) :=
  C6_unexpected_ack_internal_error _ _ 2 (by decide) (by decide)

/-- C6 counterexample: for a concrete unexpected ACK the reply's error
code is `Undefined`, not `IllegalOperation`, and the stored state does
not become `Complete`. -/
theorem C6_counterexample :
    (stateHandle (fun _ => .error "nf")
        (.reading ⟨[102], [111], 5, [], [1]⟩) (.ack 2)).2 =
      .closed (some (.error .undefined (asciiBytes "internal error occured")))
    ∧ (stateHandle (fun _ => .error "nf")
        (.reading ⟨[102], [111], 5, [], [1]⟩) (.ack 2)).1 ≠ .complete
    ∧ TftpError.undefined ≠ .illegalOperation :=
  ⟨rfl, by decide, by decide⟩

/-- C7 (amended): each receive timeout in the `Reading` state re-emits
the current DATA packet, but no finite bound of consecutive timeouts
exists after which the session closes — the code keeps no timeout
counter, so a `Reading` session retransmits forever. -/
theorem C7_reading_timeouts_never_close (rs : ReadingState) (k : Nat) :
    handleTimeout (.reading rs) = .cont (.data rs.block rs.data)
    ∧ timeoutsClose (.reading rs) k = false :=
  ⟨rfl, timeoutsClose_reading_false rs k⟩

/-- C7 counterexample: for a concrete `Reading` session there is no
finite number of consecutive timeouts that closes the connection. -/
theorem C7_counterexample :
    ¬ ∃ k : Nat, timeoutsClose (.reading ⟨[102], [111], 1, [], [7]⟩) k = true :=
  fun ⟨k, hk⟩ => by simp [timeoutsClose_reading_false] at hk

/-- C9: in `Reading`, an ACK for the current block completes the session
with no reply when the current payload is shorter than 512 bytes; when
the payload is exactly 512 bytes the session advances the block counter
(mod 2^16), reads the next chunk from the reader, and replies with a
DATA packet for the next block carrying that chunk. -/
theorem C9_ack_current_block (h : TftpHandler) (rs : ReadingState) :
    (rs.data.length < 512 →
      stateHandle h (.reading rs) (.ack rs.block) = (.complete, .closed none))
    ∧ (∀ chunk rest, rs.data.length = 512 → rs.reader = chunk :: rest →
        stateHandle h (.reading rs) (.ack rs.block) =
          (.reading ⟨rs.filename, rs.mode, u16 (rs.block + 1), rest, chunk⟩,
           .cont (.data (u16 (rs.block + 1)) chunk))) := by
  constructor
  · intro hlen
    simp [stateHandle, handleAck, hlen]
  · intro chunk rest hlen hr
    simp [stateHandle, handleAck, hlen, hr, TftpReader.read]

/-- Witness for C9: both the final-short-block case and the 512-byte
progress case at concrete states. -/
theorem C9_ack_current_block_witness :
    stateHandle (fun _ => .error "nf")
        (.reading ⟨[102], [111], 3, [[4]], [9]⟩) (.ack 3) =
      (.complete, .closed none)
    ∧ stateHandle (fun _ => .error "nf")
        (.reading ⟨[102], [111], 3, [[4]], List.replicate 512 9⟩) (.ack 3) =
      (.reading ⟨[102], [111], u16 (3 + 1), [], [4]⟩,
       .cont (.data (u16 (3 + 1)) [4])) :=
  ⟨(C9_ack_current_block _ _).1 (by decide),
   (C9_ack_current_block _ _).2 [4] [] (by simp only [List.length_replicate]) rfl⟩

/-- C10 (amended): under checked (debug-build) u16 arithmetic,
`handle_ack` panics exactly when the current block is 65535 (the
unconditional `*block + 1` overflows) or when the current block is 0
and the acked block is nonzero (the `*block - 1` comparison
underflows); whenever it does not panic it agrees with the wrapping
(release-build) semantics, which returns a `ControlFlow` on every
input. -/
theorem C10_handle_ack_checked_iff (rs : ReadingState) (acked : Nat)
    (hb : rs.block < 65536) (ha : acked < 65536) :
    (handleAckChecked rs acked = none ↔
      (rs.block = 65535 ∨ (rs.block = 0 ∧ acked ≠ 0)))
    ∧ (∀ r, handleAckChecked rs acked = some r → handleAck rs acked = r) := by
  obtain ⟨fn, md, blk, rd, da⟩ := rs
  dsimp only at hb ha ⊢
  by_cases hmax : blk = 65535
  · subst hmax
    constructor
    · simp [handleAckChecked, u16addChecked]
    · intro r hr
      simp [handleAckChecked, u16addChecked] at hr
  · have hlt : blk + 1 < 65536 := by omega
    have hnb : u16addChecked blk 1 = some (blk + 1) := by
      unfold u16addChecked; rw [if_pos hlt]
    by_cases heq : acked = blk
    · subst heq
      by_cases hshort : da.length < 512
      · constructor
        · simp [handleAckChecked, hnb, hshort] <;> omega
        · intro r hr
          simp [handleAckChecked, hnb, hshort] at hr
          simp [handleAck, hshort, ← hr]
      · cases hread : TftpReader.read rd with
        | error e =>
          constructor
          · simp [handleAckChecked, hnb, hshort, hread] <;> omega
          · intro r hr
            simp [handleAckChecked, hnb, hshort, hread] at hr
            simp [handleAck, hshort, hread, u16_eq_of_lt hlt, ← hr]
        | ok dr =>
          obtain ⟨d, r2⟩ := dr
          constructor
          · simp [handleAckChecked, hnb, hshort, hread] <;> omega
          · intro r hr
            simp [handleAckChecked, hnb, hshort, hread] at hr
            simp [handleAck, hshort, hread, u16_eq_of_lt hlt, ← hr]
    · by_cases hzero : blk = 0
      · subst hzero
        have hsb : u16subChecked 0 1 = none := rfl
        constructor
        · simp [handleAckChecked, hnb, hsb, heq]
        · intro r hr
          simp [handleAckChecked, hnb, hsb, heq] at hr
      · have hone : 1 ≤ blk := by omega
        have hsb : u16subChecked blk 1 = some (blk - 1) := by
          unfold u16subChecked; rw [if_pos hone]
        by_cases hres : acked = blk - 1
        · subst hres
          have hap : u16addChecked (blk - 1) 1 = some (blk - 1 + 1) := by
            unfold u16addChecked; rw [if_pos (by omega)]
          constructor
          · simp [handleAckChecked, hnb, hsb, hap, heq] <;> omega
          · intro r hr
            simp [handleAckChecked, hnb, hsb, hap, heq] at hr
            simp [handleAck, heq, u16sub_one_eq hone hb,
              u16_eq_of_lt (show blk - 1 + 1 < 65536 by omega), ← hr]
        · constructor
          · simp [handleAckChecked, hnb, hsb, heq, hres] <;> omega
          · intro r hr
            simp [handleAckChecked, hnb, hsb, heq, hres] at hr
            simp [handleAck, heq, u16sub_one_eq hone hb, hres, ← hr]

/-- Witness for C10: the characterization applied at current block 0,
acked block 1. -/
theorem C10_handle_ack_checked_iff_witness :
    (handleAckChecked ⟨[102], [111], 0, [], [7]⟩ 1 = none ↔
      ((0 : Nat) = 65535 ∨ ((0 : Nat) = 0 ∧ (1 : Nat) ≠ 0)))
    ∧ (∀ r, handleAckChecked ⟨[102], [111], 0, [], [7]⟩ 1 = some r →
        handleAck ⟨[102], [111], 0, [], [7]⟩ 1 = r) :=
  C10_handle_ack_checked_iff ⟨[102], [111], 0, [], [7]⟩ 1 (by decide) (by decide)

/-- C10 counterexample: with current block 0 and acked block 1 the
`*block - 1` computation underflows, and under checked (debug-build)
semantics `handle_ack` panics instead of returning a `ControlFlow`. -/
theorem C10_counterexample :
    handleAckChecked ⟨[102], [111], 0, [], [7]⟩ 1 = none
    ∧ u16subChecked 0 1 = none :=
  ⟨rfl, rfl⟩

/-- Helper: the sequential scan finds nothing iff every address of the
range is allocated. -/
theorem seqScan_none_iff (start cnt : Nat) (alloc : Finset Nat) :
    seqScan start cnt alloc = none ↔
      ∀ x, start ≤ x → x < start + cnt → x ∈ alloc := by
  unfold seqScan
  rw [List.find?_eq_none]
  constructor
  · intro h x h1 h2
    have hx : x ∈ (List.range cnt).map (start + ·) :=
      List.mem_map.mpr ⟨x - start, List.mem_range.mpr (by omega), by omega⟩
    simpa using h _ hx
  · intro h y hy
    obtain ⟨j, hj, rfl⟩ := List.mem_map.mp hy
    have hj' := List.mem_range.mp hj
    simp [h (start + j) (by omega) (by omega)]

/-- Helper: an address found by the sequential scan is inside the range
and unallocated. -/
theorem seqScan_some (start cnt : Nat) (alloc : Finset Nat) (ip : Nat)
    (h : seqScan start cnt alloc = some ip) :
    start ≤ ip ∧ ip < start + cnt ∧ ip ∉ alloc := by
  unfold seqScan at h
  have hp := List.find?_some h
  obtain ⟨j, hj, rfl⟩ := List.mem_map.mp (List.mem_of_find?_eq_some h)
  have hj' := List.mem_range.mp hj
  simp only [Bool.not_eq_eq_eq_not, Bool.not_true, decide_eq_false_iff_not] at hp
  exact ⟨by omega, by omega, hp⟩

/-- C8 (amended): for a bucket whose prefix gives `bcast = net + 2^k - 1`
and which is not one of the two degenerate /32 buckets at `0.0.0.0` or
`255.255.255.255` (where the `+ 1` / `- 1` u32 boundary arithmetic
wraps), and for any RNG draws inside `[net+1, bcast-1]`: an address
returned by `allocate` lies strictly between the network and broadcast
addresses, was not allocated before the call and the allocated set
afterwards is exactly the old set plus that address; and `allocate`
returns `none` iff every address of `[net+1, bcast-1]` was already
allocated. -/
theorem C8_ipv4_allocate (p : Ipv4PoolB) (picks : List Nat) (k : Nat)
    (hkb : p.bcast = p.net + 2 ^ k - 1)
    (hb32 : p.bcast < 2 ^ 32)
    (hb0 : p.bcast ≠ 0) (hnmax : p.net ≠ 2 ^ 32 - 1)
    (hpicks : ∀ x ∈ picks, p.net + 1 ≤ x ∧ x ≤ p.bcast - 1) :
    (∀ ip p', p.allocate picks = some (ip, p') →
       (p.net < ip ∧ ip < p.bcast ∧ ip ∉ p.allocated
        ∧ p'.allocated = insert ip p.allocated))
    ∧ (p.allocate picks = none ↔
        ∀ x, p.net + 1 ≤ x → x ≤ p.bcast - 1 → x ∈ p.allocated) := by
  have hS1 : 1 ≤ 2 ^ k := Nat.one_le_two_pow
  have h32 : (2 : Nat) ^ 32 = 4294967296 := by norm_num
  have hnet : p.net ≤ p.bcast := by omega
  rw [h32] at hb32 hnmax
  have hstart : (p.net + 1) % 2 ^ 32 = p.net + 1 := by rw [h32]; omega
  have hend : (p.bcast + 2 ^ 32 - 1) % 2 ^ 32 = p.bcast - 1 := by rw [h32]; omega
  have hsz : 2 ^ k ≤ 2 ∨ 4 ≤ 2 ^ k := by
    rcases Nat.lt_or_ge k 2 with hk | hk
    · left; interval_cases k <;> norm_num
    · right
      calc (4 : Nat) = 2 ^ 2 := by norm_num
        _ ≤ 2 ^ k := Nat.pow_le_pow_right (by norm_num) hk
  unfold Ipv4PoolB.allocate
  simp only [hstart, hend]
  by_cases hle : p.bcast - 1 ≤ p.net + 1
  · rw [if_pos hle]
    have hble : p.bcast ≤ p.net + 1 := by rcases hsz with h | h <;> omega
    refine ⟨fun ip p' h => absurd h (by simp), ?_⟩
    constructor
    · intro _ x hx1 hx2
      omega
    · intro _
      rfl
  · rw [if_neg hle]
    push_neg at hle
    cases hfind : (picks.take 100).find? (fun ip => !(decide (ip ∈ p.allocated))) with
    | some ip =>
      dsimp only
      have hfree : ip ∉ p.allocated := by simpa using List.find?_some hfind
      obtain ⟨hlo, hhi⟩ :=
        hpicks ip (List.take_subset 100 picks (List.mem_of_find?_eq_some hfind))
      constructor
      · intro ip' p' h
        simp only [Option.some.injEq, Prod.mk.injEq] at h
        obtain ⟨rfl, rfl⟩ := h
        exact ⟨by omega, by omega, hfree, rfl⟩
      · constructor
        · intro hcontra
          exact absurd hcontra (by simp)
        · intro hall
          exact absurd (hall ip hlo hhi) hfree
    | none =>
      dsimp only
      cases hscan : seqScan (p.net + 1) (p.bcast - 1 + 1 - (p.net + 1)) p.allocated with
      | some ip =>
        obtain ⟨h1, h2, h3⟩ := seqScan_some _ _ _ _ hscan
        constructor
        · intro ip' p' h
          simp only [Option.some.injEq, Prod.mk.injEq] at h
          obtain ⟨rfl, rfl⟩ := h
          exact ⟨by omega, by omega, h3, rfl⟩
        · constructor
          · intro hcontra
            exact absurd hcontra (by simp)
          · intro hall
            exact absurd (hall ip (by omega) (by omega)) h3
      | none =>
        have hall := (seqScan_none_iff _ _ _).mp hscan
        refine ⟨fun ip p' h => absurd h (by simp), ?_⟩
        constructor
        · intro _ x hx1 hx2
          exact hall x hx1 (by omega)
        · intro _
          rfl

/-- Witness for C8: a fresh 192.168.1.0/24 bucket with one RNG draw. -/
theorem C8_ipv4_allocate_witness :
    (∀ ip p',
        Ipv4PoolB.allocate ⟨3232235776, 3232236031, 1, ∅⟩ [3232235781] = some (ip, p') →
        (3232235776 < ip ∧ ip < 3232236031 ∧ ip ∉ (∅ : Finset Nat)
         ∧ p'.allocated = insert ip ∅))
    ∧ (Ipv4PoolB.allocate ⟨3232235776, 3232236031, 1, ∅⟩ [3232235781] = none ↔
        ∀ x, 3232235776 + 1 ≤ x → x ≤ 3232236031 - 1 → x ∈ (∅ : Finset Nat)) :=
  C8_ipv4_allocate ⟨3232235776, 3232236031, 1, ∅⟩ [3232235781] 8
    (by decide) (by decide) (by decide) (by decide) (by decide)

/-- C8 counterexample: the degenerate bucket for the prefix 0.0.0.0/32
(network = broadcast = 0).  The `broadcast - 1` computation wraps to
2^32 - 1, so `allocate` hands out address 5 (a legal
`gen_range(1..=2^32-1)` draw), which does not lie strictly between the
network and broadcast addresses. -/
theorem C8_counterexample :
    Ipv4PoolB.allocate ⟨0, 0, 1, ∅⟩ [5] = some (5, ⟨0, 0, 1, {5}⟩)
    ∧ ¬((0 : Nat) < 5 ∧ (5 : Nat) < 0) := by
  refine ⟨by rfl, by simp⟩

/-- Helper: the options walk fails exactly when the framing predicate
holds, for sufficient fuel (the error never depends on the accumulated
map or on decoded option contents, only on framing). -/
theorem parseOptionsGo_error_iff (fuel : Nat) (acc : OptMap) (l : List Nat)
    (hf : l.length ≤ fuel) :
    (∃ e, parseOptionsGo fuel acc l = .error e) ↔ optionsBadGo fuel l = true := by
  induction fuel generalizing acc l with
  | zero =>
    cases l with
    | nil => simp [parseOptionsGo, optionsBadGo]
    | cons c rest => simp at hf
  | succ n ih =>
    cases l with
    | nil => simp [parseOptionsGo, optionsBadGo]
    | cons c rest =>
      by_cases h255 : c = 255
      · simp [parseOptionsGo, optionsBadGo, h255]
      · by_cases h0 : c = 0
        · simp only [parseOptionsGo, optionsBadGo, h255, h0, if_false, if_true,
            ite_false, ite_true]
          exact ih acc rest (by simp at hf; omega)
        · cases rest with
          | nil => simp [parseOptionsGo, optionsBadGo, h255, h0]
          | cons len rest2 =>
            by_cases hlen : len ≤ rest2.length
            · simp only [parseOptionsGo, optionsBadGo, h255, h0, hlen, if_false,
                if_true, ite_false, ite_true]
              exact ih _ _ (by simp [List.length_drop] at hf ⊢; omega)
            · simp [parseOptionsGo, optionsBadGo, h255, h0, hlen]

/-- C5 (amended): DHCP parsing returns an error exactly when the buffer
is shorter than 236 bytes, or when the magic cookie is present
(length ≥ 240) and some option in the options region either lacks its
length byte or declares a length exceeding the remaining buffer.
Options 53/1/50/54 with wrong lengths do NOT cause errors — they are
preserved as raw `Other` options.  Additionally, buffers of length
237-239 panic on the out-of-range `data[236..240]` slice rather than
returning an error. -/
theorem C5_parse_error_characterization (data : List Nat) :
    ((∃ e, DhcpPacket.parse data = .err e) ↔
      (data.length < 236
       ∨ (240 ≤ data.length ∧ (data.drop 236).take 4 = [99, 130, 83, 99]
          ∧ optionsBad (data.drop 240) = true)))
    ∧ (DhcpPacket.parse data = .panics ↔
        (236 < data.length ∧ data.length < 240)) := by
  by_cases hshort : data.length < 236
  · constructor <;> simp [DhcpPacket.parse, hshort] <;> omega
  · by_cases hm : 236 < data.length
    · by_cases hp : data.length < 240
      · constructor <;> simp [DhcpPacket.parse, hshort, hm, hp] <;> omega
      · by_cases hc : (data.drop 236).take 4 = [99, 130, 83, 99]
        · cases hopt : parseOptionsAux [] (data.drop 240) with
          | ok m =>
            have hbad : optionsBad (data.drop 240) = false := by
              by_contra hb
              simp only [Bool.not_eq_false] at hb
              unfold optionsBad at hb
              obtain ⟨e, he⟩ :=
                (parseOptionsGo_error_iff (data.drop 240).length []
                  (data.drop 240) le_rfl).mpr hb
              unfold parseOptionsAux at hopt
              rw [hopt] at he
              cases he
            constructor <;>
              simp [DhcpPacket.parse, hshort, hm, hp, hc, hopt, hbad] <;> omega
          | error e =>
            have hbad : optionsBad (data.drop 240) = true := by
              unfold optionsBad
              exact (parseOptionsGo_error_iff (data.drop 240).length []
                (data.drop 240) le_rfl).mp ⟨e, by unfold parseOptionsAux at hopt; exact hopt⟩
            constructor <;>
              simp [DhcpPacket.parse, hshort, hm, hp, hc, hopt, hbad] <;> omega
        · constructor <;> simp [DhcpPacket.parse, hshort, hm, hp, hc] <;> omega
    · constructor <;> simp [DhcpPacket.parse, hshort, hm] <;> omega

set_option maxRecDepth 10000 in
/-- C5 counterexample: a 245-byte packet whose option 53 has length 2
parses successfully — the wrong-length option is kept as a raw option —
whereas the claim demands an error. -/
theorem C5_counterexample :
    (DhcpPacket.parse
      (List.replicate 236 0 ++ [99, 130, 83, 99] ++ [53, 2, 1, 1, 255])).isOk = true
    ∧ (match DhcpPacket.parse
          (List.replicate 236 0 ++ [99, 130, 83, 99] ++ [53, 2, 1, 1, 255]) with
       | .ok p => OptMap.get? p.options 53
       | .err _ => none
       | .panics => none) = some (.other 53 [1, 1]) :=
  ⟨rfl, rfl⟩

/-- C2 (amended): the DISCOVER handler offers the interface's existing
`ipv4_address` unconditionally whenever one is present — it never
consults the pool, so the address is offered even when the pool no
longer reports it free and the pool state is returned unchanged; only
when the interface has no address does it allocate a fresh address from
the pool restricted to the interface's `subnet_id`, failing the whole
handler when allocation fails; in both success cases the OFFER's
`yiaddr` is the chosen address. -/
theorem C2_discover_offer_choice (iface : Interface) (pools : List Ipv4PoolB)
    (picksF : Nat → List Nat) (subnets : Int → Option Subnet)
    (serverIp xid : Nat) (chaddr : List Nat) :
    (∀ a, iface.ipv4Address = some a →
      (handleDiscover iface pools picksF subnets serverIp xid chaddr).map
          (fun r => (r.1.yiaddr, r.2)) = some (a, pools))
    ∧ (iface.ipv4Address = none →
        ∀ ip pools', allocateIpv4 pools iface.subnetId picksF = some (ip, pools') →
          (handleDiscover iface pools picksF subnets serverIp xid chaddr).map
              (fun r => (r.1.yiaddr, r.2)) = some (ip, pools'))
    ∧ (iface.ipv4Address = none →
        allocateIpv4 pools iface.subnetId picksF = none →
        handleDiscover iface pools picksF subnets serverIp xid chaddr = none) := by
  refine ⟨?_, ?_, ?_⟩
  · intro a ha
    simp [handleDiscover, ha]
  · intro ha ip pools' halloc
    simp [handleDiscover, ha, halloc]
  · intro ha halloc
    simp [handleDiscover, ha, halloc]

/-- Witness for C2: an interface whose recorded address is still
allocated in the pool (so not free) is offered that address anyway, and
a fresh interface gets a pool allocation. -/
theorem C2_discover_offer_choice_witness :
    (handleDiscover ⟨some 1, 1, [1, 2, 3, 4, 5, 6], some 3232235786, none,
          false, none, none, some 1⟩
        [⟨3232235776, 3232236031, 1, {3232235786}⟩] (fun _ => [])
        (fun _ => none) 167772161 7 [1, 2, 3, 4, 5, 6]).map
        (fun r => (r.1.yiaddr, r.2)) =
      some (3232235786, [⟨3232235776, 3232236031, 1, {3232235786}⟩]) :=
  (C2_discover_offer_choice _ _ _ _ _ _ _).1 3232235786 rfl

/-- C2 counterexample: the pool reports the interface's existing
address as not free, yet the handler offers exactly that address and
leaves the pool untouched, where the claim requires a fresh allocation
in this situation. -/
theorem C2_counterexample :
    isAvailable [⟨3232235776, 3232236031, 1, {3232235786}⟩] 3232235786 = false
    ∧ (handleDiscover ⟨some 1, 1, [1, 2, 3, 4, 5, 6], some 3232235786, none,
          false, none, none, some 1⟩
        [⟨3232235776, 3232236031, 1, {3232235786}⟩] (fun _ => [])
        (fun _ => none) 167772161 7 [1, 2, 3, 4, 5, 6]).map
        (fun r => (r.1.yiaddr, r.2)) =
      some (3232235786, [⟨3232235776, 3232236031, 1, {3232235786}⟩]) :=
  ⟨by decide, rfl⟩

/-- Helper: filtering out the bindings of one key does not change the
lookup of a different key. -/
theorem find?_filter_ne (m : OptMap) (code code2 : Nat) (h : code2 ≠ code) :
    (m.filter (fun kv => kv.1 != code)).find? (fun kv => kv.1 == code2) =
      m.find? (fun kv => kv.1 == code2) := by
  induction m with
  | nil => rfl
  | cons kv rest ih =>
    by_cases hk : kv.1 = code
    · have hp : (kv.1 == code2) = false := by simp [hk, Ne.symm h]
      have hcc : (code == code2) = false := by simp [Ne.symm h]
      simp [List.filter_cons, hk, List.find?_cons, hp, hcc, ih]
    · by_cases hp : kv.1 = code2
      · simp [List.filter_cons, hk, List.find?_cons, hp, h]
      · simp [List.filter_cons, hk, List.find?_cons, hp, ih]

/-- Helper: `HashMap::insert` then `get` of the same key. -/
theorem OptMap.get?_insertOpt_self (m : OptMap) (code : Nat) (o : DhcpOption) :
    OptMap.get? (m.insertOpt code o) code = some o := by
  unfold OptMap.get? OptMap.insertOpt
  rw [List.find?_append]
  have hnone : (m.filter (fun kv => kv.1 != code)).find? (fun kv => kv.1 == code)
      = none := by
    rw [List.find?_eq_none]
    intro kv hkv
    have := (List.mem_filter.mp hkv).2
    simp at this ⊢
    exact this
  rw [hnone]
  simp [List.find?_cons]

/-- Helper: `HashMap::insert` then `get` of a different key. -/
theorem OptMap.get?_insertOpt_ne (m : OptMap) (code code2 : Nat) (o : DhcpOption)
    (h : code2 ≠ code) :
    OptMap.get? (m.insertOpt code o) code2 = OptMap.get? m code2 := by
  unfold OptMap.get? OptMap.insertOpt
  rw [List.find?_append, find?_filter_ne m code code2 h]
  have htail : ([(code, o)].find? (fun kv => kv.1 == code2)) = none := by
    simp [List.find?_cons, Ne.symm h]
  rw [htail]
  cases m.find? (fun kv => kv.1 == code2) <;> rfl

/-- C4 (amended): an accepted DHCP REQUEST (option 50 present, address
available in the pool or already owned by the interface, subnet found
with gateway, IPv4 prefix and at least one IPv4 DNS server) records an
active lease whose start is `now` and whose end is `now + 3600` — the
hard-coded one-hour default, regardless of the subnet's configured
`lease_time` — updates the interface's IPv4 to the requested address,
and replies with an ACK whose `yiaddr` is that address, carrying
options 1 (mask), 3 (gateway), 6 (DNS), 51 (the subnet's lease_time),
53 = ACK (code 5) and 54 (server identifier). -/
theorem C4_request_ack (packet : DhcpPacket) (iface : Interface)
    (pools : List Ipv4PoolB) (subnets : Int → Option Subnet)
    (now serverIp requested : Nat) (S : Subnet) (gw naddr plen : Nat)
    (dns4 : List Nat)
    (hreq : OptMap.get? packet.options 50 = some (.requestedIpAddress requested))
    (hacc : isAvailable pools requested = true ∨ iface.ipv4Address = some requested)
    (hsub : getSubnetForInterface subnets iface = some S)
    (hgw : S.gatewayIpv4 = some gw)
    (hnet : S.networkIpv4 = some (naddr, plen))
    (hdns : S.dnsServers.filterMap
        (fun a => match a with | .v4 x => some x | .v6 _ => none) = dns4)
    (hdns0 : dns4 ≠ []) :
    (handleRequest packet iface pools subnets now serverIp).lease? =
        some ⟨iface.id.getD 0, iface.subnetId.getD 0, requested, now,
              now + 3600, true⟩
    ∧ (handleRequest packet iface pools subnets now serverIp).ifaceIp? =
        some (some requested)
    ∧ ((handleRequest packet iface pools subnets now serverIp).ackPacket?).map
        DhcpPacket.yiaddr = some requested
    ∧ ((handleRequest packet iface pools subnets now serverIp).ackPacket?).map
        DhcpPacket.op = some 2
    ∧ ((handleRequest packet iface pools subnets now serverIp).ackPacket?).bind
        (fun p => OptMap.get? p.options 53) = some (.messageType .ack)
    ∧ DhcpMessageType.toCode .ack = 5
    ∧ ((handleRequest packet iface pools subnets now serverIp).ackPacket?).bind
        (fun p => OptMap.get? p.options 54) = some (.serverIdentifier serverIp)
    ∧ ((handleRequest packet iface pools subnets now serverIp).ackPacket?).bind
        (fun p => OptMap.get? p.options 3) = some (.router [gw])
    ∧ ((handleRequest packet iface pools subnets now serverIp).ackPacket?).bind
        (fun p => OptMap.get? p.options 1) = some (.subnetMask (netmask plen))
    ∧ ((handleRequest packet iface pools subnets now serverIp).ackPacket?).bind
        (fun p => OptMap.get? p.options 6) = some (.dnsServers dns4)
    ∧ ((handleRequest packet iface pools subnets now serverIp).ackPacket?).bind
        (fun p => OptMap.get? p.options 51) = some (.leaseTime S.leaseTime) := by
  have hcond : ¬(isAvailable pools requested = false
      ∧ iface.ipv4Address ≠ some requested) := by
    rcases hacc with h | h
    · simp [h]
    · simp [h]
  have hne : S.dnsServers ≠ [] := by
    intro h0
    rw [h0] at hdns
    simp only [List.filterMap_nil] at hdns
    exact hdns0 hdns.symm
  refine ⟨?_, ?_, ?_, ?_, ?_, rfl, ?_, ?_, ?_, ?_, ?_⟩ <;>
    simp [handleRequest, hreq, hcond, hsub, hgw, hnet, hne, hdns, hdns0,
      createLease, addSubnetOptions, RequestOutcome.lease?,
      RequestOutcome.ifaceIp?, RequestOutcome.ackPacket?,
      OptMap.get?_insertOpt_self, OptMap.get?_insertOpt_ne]

/-- Witness for C4: a concrete accepted REQUEST against a subnet with
lease_time 7200. -/
theorem C4_request_ack_witness :
    (handleRequest
        { DhcpPacket.new with
            options := [(50, DhcpOption.requestedIpAddress 3232235786)] }
        ⟨some 2, 1, [1, 2, 3, 4, 5, 6], none, none, false, none, none, some 1⟩
        [⟨3232235776, 3232236031, 1, ∅⟩]
        (fun _ => some ⟨some 1, [], some (3232235776, 24), none,
          some 3232235777, none, [.v4 134744072], 7200⟩)
        1000 167772161).lease? =
        some ⟨2, 1, 3232235786, 1000, 1000 + 3600, true⟩
    ∧ (handleRequest
        { DhcpPacket.new with
            options := [(50, DhcpOption.requestedIpAddress 3232235786)] }
        ⟨some 2, 1, [1, 2, 3, 4, 5, 6], none, none, false, none, none, some 1⟩
        [⟨3232235776, 3232236031, 1, ∅⟩]
        (fun _ => some ⟨some 1, [], some (3232235776, 24), none,
          some 3232235777, none, [.v4 134744072], 7200⟩)
        1000 167772161).ifaceIp? = some (some 3232235786) :=
  ⟨(C4_request_ack
      { DhcpPacket.new with
          options := [(50, DhcpOption.requestedIpAddress 3232235786)] }
      ⟨some 2, 1, [1, 2, 3, 4, 5, 6], none, none, false, none, none, some 1⟩
      [⟨3232235776, 3232236031, 1, ∅⟩]
      (fun _ => some ⟨some 1, [], some (3232235776, 24), none,
        some 3232235777, none, [.v4 134744072], 7200⟩)
      1000 167772161 3232235786
      ⟨some 1, [], some (3232235776, 24), none, some 3232235777, none,
        [.v4 134744072], 7200⟩
      3232235777 3232235776 24 [134744072]
      rfl (Or.inl (by decide)) rfl rfl rfl rfl (by decide)).1,
   (C4_request_ack
      { DhcpPacket.new with
          options := [(50, DhcpOption.requestedIpAddress 3232235786)] }
      ⟨some 2, 1, [1, 2, 3, 4, 5, 6], none, none, false, none, none, some 1⟩
      [⟨3232235776, 3232236031, 1, ∅⟩]
      (fun _ => some ⟨some 1, [], some (3232235776, 24), none,
        some 3232235777, none, [.v4 134744072], 7200⟩)
      1000 167772161 3232235786
      ⟨some 1, [], some (3232235776, 24), none, some 3232235777, none,
        [.v4 134744072], 7200⟩
      3232235777 3232235776 24 [134744072]
      rfl (Or.inl (by decide)) rfl rfl rfl rfl (by decide)).2.1⟩

/-- C4 counterexample: the subnet's configured lease_time is 7200
seconds, but the recorded lease ends at now + 3600 (the hard-coded
default), not now + lease_time as the claim states. -/
theorem C4_counterexample :
    (handleRequest
        { DhcpPacket.new with
            options := [(50, DhcpOption.requestedIpAddress 3232235786)] }
        ⟨some 2, 1, [1, 2, 3, 4, 5, 6], none, none, false, none, none, some 1⟩
        [⟨3232235776, 3232236031, 1, ∅⟩]
        (fun _ => some ⟨some 1, [], some (3232235776, 24), none,
          some 3232235777, none, [.v4 134744072], 7200⟩)
        1000 167772161).lease? =
      some ⟨2, 1, 3232235786, 1000, 4600, true⟩
    ∧ (4600 : Nat) ≠ 1000 + 7200 :=
  ⟨rfl, by decide⟩

end RackDirector
